import Mathlib

/-!
Verification development for the taiga-back project-metrics engine
(`taiga/projects/metrics/{base,internal,metrics_impl}.py`).

The Python code aggregates task / user-story / issue / membership rows with
SQL and turns the counts into ratio KPIs, cached as snapshots with a TTL.
This file shallowly embeds that logic: database tables become lists of
records, each SQL aggregate becomes a Lean function over those lists with
the same filters and counts, Python floats become rationals, and Python's
`round(x, 4)` becomes `round4` (round half to even, as CPython does).

Modelling notes (assumptions the embedding makes about the database):
* every task / story / issue has a status row, so `is_closed` is a `Bool`
  rather than a nullable column (the SQL uses LEFT JOIN but Taiga always
  assigns a status);
* primary keys are distinct within each table, and a user holds at most one
  membership per project (both enforced by the schema);
* `ORDER BY` clauses that only affect presentation order (the student rows
  are ordered by full name) are not modelled: no property proved here
  depends on that order;
* timestamps and dates are integers (minutes for snapshot times, day
  numbers for milestone dates); `timezone.now().isoformat()` becomes
  `toString now`.
-/

namespace Taiga

/-- CPython `round` rounds half to even. `roundHalfEven q` is that rounding
of a rational to an integer. -/
def roundHalfEven (q : ℚ) : ℤ :=
  let f : ℤ := ⌊q⌋
  let r : ℚ := q - (f : ℚ)
  if r < 1/2 then f
  else if 1/2 < r then f + 1
  else if f % 2 = 0 then f else f + 1

/-- Python `round(x, 4)` on the values this code produces. -/
def round4 (q : ℚ) : ℚ := (roundHalfEven (q * 10000) : ℚ) / 10000

theorem round4_zero : round4 0 = 0 := by norm_num [round4, roundHalfEven]

theorem round4_one : round4 1 = 1 := by norm_num [round4, roundHalfEven]

/-! ## Data model (the relational rows the metrics SQL consults) -/

/-- `taiga.projects.models.Project` (the fields the metrics code reads). -/
structure Project where
  id : Nat
  slug : String
  name : String
deriving DecidableEq

/-- A `tasks_task` row joined with its `projects_taskstatus` row.
`statusClosed` is `ts.is_closed`; `finishedRecent` models
`t.finished_date >= NOW() - INTERVAL '7 days'`. -/
structure Task where
  id : Nat
  projectId : Nat
  milestoneId : Option Nat
  userStoryId : Option Nat
  assignedTo : Option Nat
  statusClosed : Bool
  isBlocked : Bool
  dueDate : Option Int
  finishedRecent : Bool
deriving DecidableEq

/-- A `userstories_userstory` row joined with `projects_userstorystatus`. -/
structure UserStory where
  id : Nat
  projectId : Nat
  milestoneId : Option Nat
  assignedTo : Option Nat
  statusClosed : Bool
deriving DecidableEq

/-- An `issues_issue` row joined with `projects_issuestatus`.
`finishedRecent` models `i.finished_date >= NOW() - INTERVAL '14 days'`. -/
structure Issue where
  id : Nat
  projectId : Nat
  milestoneId : Option Nat
  statusClosed : Bool
  finishedRecent : Bool
deriving DecidableEq

/-- A `milestones_milestone` (sprint) row. Dates are day numbers. -/
structure Milestone where
  id : Nat
  projectId : Nat
  name : String
  closed : Bool
  estimatedStart : Int
  estimatedFinish : Int
deriving DecidableEq

/-- A `projects_membership` row (`user_id` is nullable: invitations). -/
structure Membership where
  projectId : Nat
  userId : Option Nat
deriving DecidableEq

/-- A `users_user` row; `fullName = ""` plays the role of
`NULLIF(full_name, '')` being NULL. -/
structure UserRow where
  id : Nat
  username : String
  fullName : String
deriving DecidableEq

/-- The database state the metrics engine queries. -/
structure Db where
  tasks : List Task
  stories : List UserStory
  issues : List Issue
  milestones : List Milestone
  memberships : List Membership
  users : List UserRow
deriving DecidableEq

/-! ## `base.get_active_sprint` -/

/-- Row predicate of the first query in `get_active_sprint`: open milestone
of the project whose date range contains today. -/
def sprintCurrent (pid : Nat) (today : Int) (m : Milestone) : Bool :=
  m.projectId == pid && !m.closed
    && decide (m.estimatedStart ≤ today) && decide (today ≤ m.estimatedFinish)

/-- Row predicate of the fallback query: open milestone of the project. -/
def sprintOpen (pid : Nat) (m : Milestone) : Bool :=
  m.projectId == pid && !m.closed

/-- `ORDER BY m.estimated_finish ASC LIMIT 1`: a row with minimal
`estimated_finish` (the database picks an arbitrary row among ties; the
model keeps the first). -/
def minByFinish? : List Milestone → Option Milestone
  | [] => none
  | m :: rest =>
    match minByFinish? rest with
    | none => some m
    | some b => if m.estimatedFinish ≤ b.estimatedFinish then some m else some b

/-- `base.get_active_sprint(project_id)`: first an open milestone whose
range contains today (`LIMIT 1`), else the open milestone with the earliest
`estimated_finish`, else nothing (the Python helper returns a falsy `{}`). -/
def get_active_sprint (milestones : List Milestone) (pid : Nat) (today : Int) :
    Option Milestone :=
  match milestones.find? (sprintCurrent pid today) with
  | some m => some m
  | none => minByFinish? (milestones.filter (sprintOpen pid))

theorem minByFinish?_eq_none (l : List Milestone) :
    minByFinish? l = none ↔ l = [] := by
  cases l with
  | nil => simp [minByFinish?]
  | cons a rest =>
    simp only [minByFinish?]
    cases minByFinish? rest with
    | none => simp
    | some b =>
      by_cases h : a.estimatedFinish ≤ b.estimatedFinish <;> simp [h]

theorem minByFinish?_spec (l : List Milestone) (hl : l ≠ []) :
    ∃ m, minByFinish? l = some m ∧ m ∈ l ∧
      ∀ x ∈ l, m.estimatedFinish ≤ x.estimatedFinish := by
  induction l with
  | nil => exact absurd rfl hl
  | cons a rest ih =>
    by_cases hne : rest = []
    · subst hne
      refine ⟨a, by simp [minByFinish?], List.mem_cons_self a _, ?_⟩
      intro x hx
      simp only [List.mem_singleton] at hx
      simp [hx]
    · obtain ⟨m, hm, hmem, hmin⟩ := ih hne
      by_cases hle : a.estimatedFinish ≤ m.estimatedFinish
      · refine ⟨a, by simp [minByFinish?, hm, hle], List.mem_cons_self a _, ?_⟩
        intro x hx
        rcases List.mem_cons.mp hx with h | h
        · simp [h]
        · exact le_trans hle (hmin x h)
      · refine ⟨m, by simp [minByFinish?, hm, hle], List.mem_cons_of_mem a hmem, ?_⟩
        intro x hx
        rcases List.mem_cons.mp hx with h | h
        · subst h; omega
        · exact hmin x h

/-! ## Metric result dictionaries -/

/-- A value stored under a key of a metric's `metadata` dict. -/
inductive MetaVal where
  | num (q : ℚ)
  | str (s : String)
  | bool (b : Bool)
deriving DecidableEq

/-- The dictionary shape shared by project-metric results
(`BaseMetric._build_result`, `InternalMetricsCalculator._metric_*`) and the
flattened per-student entries (`_student_metric`); fields a given producer
does not set stay at their defaults. -/
structure MetricDict where
  id : String
  name : String
  value : ℚ
  valueDescription : Option String
  description : String
  qualityFactors : List String
  metadata : List (String × MetaVal)
  date : Option String := none
  student : Option String := none
  studentDisplay : Option String := none
deriving DecidableEq

/-- `BaseMetric._build_result`: standard result shape, rounding the value
to 4 decimal places and composing the id as `{metric_id}_{project.slug}`. -/
def build_result (p : Project) (metricId name description : String)
    (qualityFactors : List String) (value : ℚ) (valueDescription : String)
    (metadata : List (String × MetaVal)) : MetricDict :=
  { id := metricId ++ "_" ++ p.slug
    name
    value := round4 value
    valueDescription := some valueDescription
    description
    qualityFactors
    metadata }

/-! ## `metrics_impl` concrete project metrics

Every concrete metric resolves the active sprint, appends
`AND <table>.milestone_id = <sprint_id>` to its SQL filter when a sprint is
active, and maps a zero denominator to a fixed fallback value. -/

/-- The conditional `sprint_filter` SQL fragment as a row predicate. -/
def milestoneFilter (sprint : Option Milestone) (mid : Option Nat) : Bool :=
  match sprint with
  | some s => mid == some s.id
  | none => true

/-- `sprint.get("name", "Sprint") if sprint else "Proyecto"` (the model's
milestones always carry a name). -/
def sprintDisplayName (sprint : Option Milestone) : String :=
  match sprint with
  | some s => s.name
  | none => "Proyecto"

namespace TaskCompletionMetric

/-- Rows scanned by the aggregate: the project's tasks, restricted to the
active sprint when there is one. -/
def rows (db : Db) (p : Project) (today : Int) : List Task :=
  let sprint := get_active_sprint db.milestones p.id today
  db.tasks.filter (fun t => t.projectId == p.id && milestoneFilter sprint t.milestoneId)

/-- `TaskCompletionMetric.calculate`, which always returns a result dict. -/
def result (db : Db) (p : Project) (today : Int) : MetricDict :=
  let sprint := get_active_sprint db.milestones p.id today
  let rs := rows db p today
  let total := rs.length
  let closed := (rs.filter (fun t => t.statusClosed)).length
  let recentClosed := (rs.filter (fun t => t.statusClosed && t.finishedRecent)).length
  let ratio : ℚ := if 0 < total then (closed : ℚ) / (total : ℚ) else 0
  build_result p "task_completion" "Tareas cerradas"
    "Progreso de cierre de tareas del sprint." ["Delivery"] ratio
    (toString closed ++ "/" ++ toString total ++ " en " ++ sprintDisplayName sprint)
    [("total", .num (total : ℚ)), ("closed", .num (closed : ℚ)),
     ("recent_closed", .num (recentClosed : ℚ)),
     ("sprint_name", .str (sprintDisplayName sprint)),
     ("has_active_sprint", .bool sprint.isSome)]

def calculate (db : Db) (p : Project) (today : Int) : Option MetricDict :=
  some (result db p today)

end TaskCompletionMetric

namespace TaskAssignmentMetric

/-- Tasks of the project (active sprint scope). -/
def rows (db : Db) (p : Project) (today : Int) : List Task :=
  let sprint := get_active_sprint db.milestones p.id today
  db.tasks.filter (fun t => t.projectId == p.id && milestoneFilter sprint t.milestoneId)

/-- `TaskAssignmentMetric.calculate`: ratio of tasks with an assignee;
`1.0` when there are no tasks in scope. -/
def result (db : Db) (p : Project) (today : Int) : MetricDict :=
  let sprint := get_active_sprint db.milestones p.id today
  let rs := rows db p today
  let total := rs.length
  let assigned := (rs.filter (fun t => t.assignedTo.isSome)).length
  let ratio : ℚ := if 0 < total then (assigned : ℚ) / (total : ℚ) else 1
  build_result p "task_assignment" "Tareas asignadas"
    "Tareas con responsable definido." ["Planning"] ratio
    (toString assigned ++ "/" ++ toString total ++ " en " ++ sprintDisplayName sprint)
    [("total", .num (total : ℚ)), ("assigned", .num (assigned : ℚ)),
     ("unassigned", .num ((total - assigned : ℕ) : ℚ)),
     ("sprint_name", .str (sprintDisplayName sprint))]

def calculate (db : Db) (p : Project) (today : Int) : Option MetricDict :=
  some (result db p today)

end TaskAssignmentMetric

namespace BlockedTasksMetric

/-- Open (not closed) tasks of the project in the active sprint scope:
`WHERE t.project_id = %s AND ts.is_closed = FALSE {sprint_filter}`. -/
def rows (db : Db) (p : Project) (today : Int) : List Task :=
  let sprint := get_active_sprint db.milestones p.id today
  db.tasks.filter (fun t =>
    t.projectId == p.id && t.statusClosed == false && milestoneFilter sprint t.milestoneId)

/-- `BlockedTasksMetric.calculate`: `1 - blocked/open`; `1.0` when there are
no open tasks in scope. -/
def result (db : Db) (p : Project) (today : Int) : MetricDict :=
  let sprint := get_active_sprint db.milestones p.id today
  let rs := rows db p today
  let total := rs.length
  let blocked := (rs.filter (fun t => t.isBlocked)).length
  let ratio : ℚ := if 0 < total then 1 - (blocked : ℚ) / (total : ℚ) else 1
  build_result p "blocked_tasks" "Tareas sin bloquear"
    "Tareas que fluyen sin impedimentos." ["Quality"] ratio
    (toString blocked ++ " bloqueadas en " ++ sprintDisplayName sprint)
    [("total_open", .num (total : ℚ)), ("blocked", .num (blocked : ℚ)),
     ("sprint_name", .str (sprintDisplayName sprint))]

def calculate (db : Db) (p : Project) (today : Int) : Option MetricDict :=
  some (result db p today)

end BlockedTasksMetric

namespace StoriesWithTasksMetric

/-- User stories of the project in the active sprint scope. -/
def rows (db : Db) (p : Project) (today : Int) : List UserStory :=
  let sprint := get_active_sprint db.milestones p.id today
  db.stories.filter (fun us => us.projectId == p.id && milestoneFilter sprint us.milestoneId)

/-- `StoriesWithTasksMetric.calculate`: ratio of stories having at least one
task (the `EXISTS` subquery scans the whole task table, with no project
filter, exactly as the SQL does); `1.0` when there are no stories. -/
def result (db : Db) (p : Project) (today : Int) : MetricDict :=
  let sprint := get_active_sprint db.milestones p.id today
  let rs := rows db p today
  let total := rs.length
  let withTasks := (rs.filter (fun us =>
    db.tasks.any (fun t => t.userStoryId == some us.id))).length
  let ratio : ℚ := if 0 < total then (withTasks : ℚ) / (total : ℚ) else 1
  build_result p "stories_with_tasks" "Historias desglosadas"
    "Historias con tareas definidas." ["Planning"] ratio
    (toString withTasks ++ "/" ++ toString total ++ " en " ++ sprintDisplayName sprint)
    [("total_stories", .num (total : ℚ)), ("with_tasks", .num (withTasks : ℚ)),
     ("sprint_name", .str (sprintDisplayName sprint))]

def calculate (db : Db) (p : Project) (today : Int) : Option MetricDict :=
  some (result db p today)

end StoriesWithTasksMetric

namespace TeamParticipationMetric

/-- `COUNT(DISTINCT m.user_id)` over the project's memberships with a
non-null user. -/
def memberIds (db : Db) (p : Project) : List Nat :=
  ((db.memberships.filter (fun m => m.projectId == p.id && m.userId.isSome)).filterMap
    (fun m => m.userId)).dedup

/-- `TeamParticipationMetric.calculate`: ratio of members having at least
one assigned task (sprint-scoped join when a sprint is active); `0.0` when
there are no members. -/
def result (db : Db) (p : Project) (today : Int) : MetricDict :=
  let sprint := get_active_sprint db.milestones p.id today
  let members := memberIds db p
  let total := members.length
  let withTasks := (members.filter (fun uid =>
    db.tasks.any (fun t =>
      t.projectId == p.id && t.assignedTo == some uid
        && milestoneFilter sprint t.milestoneId))).length
  let ratio : ℚ := if 0 < total then (withTasks : ℚ) / (total : ℚ) else 0
  build_result p "team_participation" "Participación del equipo"
    "Miembros activos con tareas asignadas." ["Delivery"] ratio
    (toString withTasks ++ "/" ++ toString total ++ " en " ++ sprintDisplayName sprint)
    [("total_members", .num (total : ℚ)), ("members_with_tasks", .num (withTasks : ℚ)),
     ("sprint_name", .str (sprintDisplayName sprint))]

def calculate (db : Db) (p : Project) (today : Int) : Option MetricDict :=
  some (result db p today)

end TeamParticipationMetric

namespace OverdueTasksMetric

/-- Open tasks of the project in the active sprint scope (same `WHERE` as
the blocked-tasks metric). -/
def rows (db : Db) (p : Project) (today : Int) : List Task :=
  let sprint := get_active_sprint db.milestones p.id today
  db.tasks.filter (fun t =>
    t.projectId == p.id && t.statusClosed == false && milestoneFilter sprint t.milestoneId)

/-- `OverdueTasksMetric.calculate` (metric id `tasks_on_time`):
`1 - overdue/open`; `1.0` when there are no open tasks in scope. -/
def result (db : Db) (p : Project) (today : Int) : MetricDict :=
  let sprint := get_active_sprint db.milestones p.id today
  let rs := rows db p today
  let totalOpen := rs.length
  let overdue := (rs.filter (fun t =>
    match t.dueDate with
    | some d => decide (d < today)
    | none => false)).length
  let ratio : ℚ := if 0 < totalOpen then 1 - (overdue : ℚ) / (totalOpen : ℚ) else 1
  build_result p "tasks_on_time" "Tareas en plazo"
    "Tareas sin fecha vencida." ["Delivery"] ratio
    (toString overdue ++ " vencidas en " ++ sprintDisplayName sprint)
    [("total_open", .num (totalOpen : ℚ)), ("overdue", .num (overdue : ℚ)),
     ("on_time", .num ((totalOpen - overdue : ℕ) : ℚ)),
     ("sprint_name", .str (sprintDisplayName sprint))]

def calculate (db : Db) (p : Project) (today : Int) : Option MetricDict :=
  some (result db p today)

end OverdueTasksMetric

/-! ## The registries (`base.py` bottom section)

`METRIC_REGISTRY`, `STUDENT_METRIC_REGISTRY` and
`HISTORICAL_METRIC_REGISTRY` are module-level lists; importing
`metrics_impl` appends every decorated class. Each entry is modelled by the
registered class's identity key (`metric_id` / `metric_key` / `series_id`),
in registration order. -/

def METRIC_REGISTRY : List String :=
  ["task_completion", "userstory_completion", "issue_resolution",
   "task_assignment", "blocked_tasks", "stories_with_tasks",
   "team_participation", "tasks_on_time", "task_closure_time"]

def STUDENT_METRIC_REGISTRY : List String :=
  ["assignedtasks", "closedtasks", "totalus", "completedus"]

def HISTORICAL_METRIC_REGISTRY : List String :=
  ["task_completion", "task_vs_issue", "user_closed_tasks",
   "user_story_points", "role_story_points", "user_stories_closed",
   "sprint_velocity"]

/-! ## `internal.InternalMetricsCalculator`

This calculator computes the snapshot payload with three hard-coded project
KPIs and an inline per-student aggregation; it does not consult the
registries above. -/

/-- One row of the static legend from `_build_metric_categories`. -/
structure CategoryRow where
  name : String
  upperThreshold : ℚ
  color : String
  type : String
deriving DecidableEq

/-- `_build_metric_categories`: fixed lookup table. -/
def _build_metric_categories : List CategoryRow :=
  [{ name := "Delivery", upperThreshold := 1/2, color := "#EF4444", type := "percentage" },
   { name := "Delivery", upperThreshold := 4/5, color := "#F59E0B", type := "percentage" },
   { name := "Delivery", upperThreshold := 1, color := "#22C55E", type := "percentage" },
   { name := "Planning", upperThreshold := 1/2, color := "#EF4444", type := "percentage" },
   { name := "Planning", upperThreshold := 4/5, color := "#F59E0B", type := "percentage" },
   { name := "Planning", upperThreshold := 1, color := "#22C55E", type := "percentage" },
   { name := "Quality", upperThreshold := 1/2, color := "#EF4444", type := "percentage" },
   { name := "Quality", upperThreshold := 4/5, color := "#F59E0B", type := "percentage" },
   { name := "Quality", upperThreshold := 1, color := "#22C55E", type := "percentage" },
   { name := "Team", upperThreshold := 100, color := "#8B5CF6", type := "absolute" }]

/-- The `hours` dict of the payload. -/
structure Hours where
  execution : ℚ
  pending : ℚ
  quality : ℚ
  incidents : ℚ
deriving DecidableEq

/-- One entry of the payload's `students` list;
`taigaIdentityUsername` models `identities["TAIGA"]["username"]`. -/
structure StudentView where
  username : String
  name : String
  displayName : String
  taigaIdentityUsername : String
  metrics : List MetricDict
deriving DecidableEq

/-- The snapshot payload assembled by `build_snapshot`. -/
structure Payload where
  projectSlug : String
  projectName : String
  externalProjectId : String
  metrics : List MetricDict
  students : List StudentView
  metricsCategories : List CategoryRow
  strategicIndicators : List MetricDict
  qualityFactors : List MetricDict
  hours : Hours
  errors : List (String × String)
  isNewProject : Bool
deriving DecidableEq

/-- `SnapshotResult`. The `historical` member (time-bucketed SQL series) is
outside this embedding's scope: no claim concerns its contents, and the
sequencing of the historical builder is modelled by `buildSnapshotSeq`. -/
structure SnapshotResult where
  payload : Payload
deriving DecidableEq

/-- `metadata.get(key, 0)` for the numeric metadata this calculator stores. -/
def mdGetNum (md : List (String × MetaVal)) (key : String) : ℚ :=
  match md.lookup key with
  | some (.num q) => q
  | _ => 0

/-- Python truthiness of `metadata.get("total")`. -/
def mdTruthy : Option MetaVal → Bool
  | some (.num q) => q != 0
  | some (.str s) => s != ""
  | some (.bool b) => b
  | none => false

/-- `_metric_task_completion` always returns this dict (project-wide scope,
no sprint filter). -/
def _metric_task_completion_dict (db : Db) (p : Project) : MetricDict :=
  let rows := db.tasks.filter (fun t => t.projectId == p.id)
  let total := rows.length
  let closed := (rows.filter (fun t => t.statusClosed)).length
  let recentClosed := (rows.filter (fun t => t.statusClosed && t.finishedRecent)).length
  let ratio : ℚ := if total == 0 then 0 else (closed : ℚ) / (total : ℚ)
  { id := "task_completion_" ++ p.slug
    name := "Closed tasks"
    value := round4 ratio
    valueDescription := some (toString closed ++ "/" ++ toString total ++ " tasks closed")
    description := "Porcentaje de tareas en estado cerrado dentro del proyecto."
    qualityFactors := ["Delivery"]
    metadata := [("total", .num (total : ℚ)), ("closed", .num (closed : ℚ)),
                 ("recent_closed", .num (recentClosed : ℚ))] }

def _metric_task_completion (db : Db) (p : Project) : Option MetricDict :=
  some (_metric_task_completion_dict db p)

/-- `_metric_user_story_completion` (project-wide scope). -/
def _metric_user_story_completion_dict (db : Db) (p : Project) : MetricDict :=
  let rows := db.stories.filter (fun us => us.projectId == p.id)
  let total := rows.length
  let closed := (rows.filter (fun us => us.statusClosed)).length
  let ratio : ℚ := if total != 0 then (closed : ℚ) / (total : ℚ) else 0
  { id := "userstory_completion_" ++ p.slug
    name := "Historias completadas"
    value := round4 ratio
    valueDescription := some (toString closed ++ "/" ++ toString total ++ " historias cerradas")
    description := "Porcentaje de user stories en estado finalizado."
    qualityFactors := ["Planning"]
    metadata := [("total", .num (total : ℚ)), ("closed", .num (closed : ℚ))] }

def _metric_user_story_completion (db : Db) (p : Project) : Option MetricDict :=
  some (_metric_user_story_completion_dict db p)

/-- `_metric_issue_resolution` (project-wide scope). -/
def _metric_issue_resolution_dict (db : Db) (p : Project) : MetricDict :=
  let rows := db.issues.filter (fun i => i.projectId == p.id)
  let total := rows.length
  let closed := (rows.filter (fun i => i.statusClosed)).length
  let recentClosed := (rows.filter (fun i => i.statusClosed && i.finishedRecent)).length
  let ratio : ℚ := if total != 0 then (closed : ℚ) / (total : ℚ) else 0
  { id := "issue_resolution_" ++ p.slug
    name := "Incidencias resueltas"
    value := round4 ratio
    valueDescription := some (toString closed ++ "/" ++ toString total ++ " issues resueltos")
    description := "Estado de resolución de incidencias dentro del proyecto."
    qualityFactors := ["Quality"]
    metadata := [("total", .num (total : ℚ)), ("closed", .num (closed : ℚ)),
                 ("recent_closed", .num (recentClosed : ℚ))] }

def _metric_issue_resolution (db : Db) (p : Project) : Option MetricDict :=
  some (_metric_issue_resolution_dict db p)

/-- `_student_metric(username, display_name, metric_key, label, value)`:
flat per-student entry whose `value` is `float(value or 0)` — the raw
count — and whose `value_description` is `str(value)`. -/
def _student_metric (username displayName metricKey label : String)
    (value : Nat) (nowIso : String) : MetricDict :=
  let display := if displayName == "" then username else displayName
  { id := metricKey ++ "_" ++ username
    name := if display != "" then label ++ " · " ++ display else label
    value := (value : ℚ)
    valueDescription := some (toString value)
    description := if display != "" then label ++ " de " ++ display else label
    qualityFactors := ["Team"]
    date := some nowIso
    student := some username
    studentDisplay := some display
    metadata := [("student", .str username), ("student_display", .str display),
                 ("metric", .str metricKey)] }

/-- LEFT JOIN padding: an empty match list contributes one NULL row. -/
def leftRows {α : Type} (l : List α) : List (Option α) :=
  if l.isEmpty then [none] else l.map some

/-- The four aggregates of one row of the `_build_student_metrics` query. -/
structure StudentCounts where
  assignedTasks : Nat
  closedTasks : Nat
  assignedStories : Nat
  closedStories : Nat
deriving DecidableEq

/-- One user's row of the `_build_student_metrics` query. The query LEFT
JOINs the user's tasks and the user's stories in the same SELECT and counts
with `COUNT(col) FILTER`, so the counts range over the cartesian product of
the two match lists (each padded with a NULL row when empty) — the model
reproduces that fan-out faithfully. -/
def studentCounts (db : Db) (p : Project) (uid : Nat) : StudentCounts :=
  let ts := db.tasks.filter (fun t => t.projectId == p.id && t.assignedTo == some uid)
  let ss := db.stories.filter (fun us => us.projectId == p.id && us.assignedTo == some uid)
  let joined := (leftRows ts).flatMap (fun t => (leftRows ss).map (fun s => (t, s)))
  { assignedTasks := (joined.filter (fun r => r.1.isSome)).length
    closedTasks := (joined.filter (fun r =>
      match r.1 with | some t => t.statusClosed | none => false)).length
    assignedStories := (joined.filter (fun r => r.2.isSome)).length
    closedStories := (joined.filter (fun r =>
      match r.2 with | some s => s.statusClosed | none => false)).length }

/-- `FROM projects_membership m JOIN users_user u ... GROUP BY u.id`:
the project's member users (non-null user id, one row per user). -/
def studentUsers (db : Db) (p : Project) : List UserRow :=
  (((db.memberships.filter (fun m => m.projectId == p.id && m.userId.isSome)).filterMap
      (fun m => m.userId)).dedup).filterMap
    (fun uid => db.users.find? (fun u => u.id == uid))

/-- `COALESCE(NULLIF(u.full_name, ''), u.username)`. -/
def coalescedName (u : UserRow) : String :=
  if u.fullName == "" then u.username else u.fullName

/-- `_build_student_metrics`: returns the `students` payload and the
flattened metric entries (four per member: assignedtasks, closedtasks,
totalus, completedus). -/
def _build_student_metrics (db : Db) (p : Project) (nowIso : String) :
    List StudentView × List MetricDict :=
  let perUser := (studentUsers db p).map (fun u =>
    let c := studentCounts db p u.id
    let fullName := coalescedName u
    let studentMetrics :=
      [_student_metric u.username fullName "assignedtasks" "Tareas asignadas" c.assignedTasks nowIso,
       _student_metric u.username fullName "closedtasks" "Tareas cerradas" c.closedTasks nowIso,
       _student_metric u.username fullName "totalus" "Historias asignadas" c.assignedStories nowIso,
       _student_metric u.username fullName "completedus" "Historias finalizadas" c.closedStories nowIso]
    let sv : StudentView :=
      { username := u.username
        name := fullName
        displayName := fullName
        taigaIdentityUsername := u.username
        metrics := studentMetrics }
    (sv, studentMetrics))
  (perUser.map (fun x => x.1), perUser.flatMap (fun x => x.2))

/-- Accumulator of the `_build_hours_breakdown` loop. -/
structure HoursAcc where
  totalTasks : ℚ := 0
  closedTasks : ℚ := 0
  totalIssues : ℚ := 0
  closedIssues : ℚ := 0

/-- `_build_hours_breakdown`: scans the already-computed metrics list for
`task_completion*` / `issue_resolution*` ids and repurposes their
`total`/`closed` metadata. -/
def _build_hours_breakdown (metrics : List MetricDict) : Hours :=
  let acc := metrics.foldl (fun (acc : HoursAcc) m =>
    let md := m.metadata
    if md.isEmpty then acc
    else
      let acc :=
        if (md.lookup "total").isSome && m.id.startsWith "task_completion" then
          { acc with totalTasks := mdGetNum md "total", closedTasks := mdGetNum md "closed" }
        else acc
      if (md.lookup "total").isSome && m.id.startsWith "issue_resolution" then
        { acc with totalIssues := mdGetNum md "total", closedIssues := mdGetNum md "closed" }
      else acc) {}
  { execution := acc.closedTasks
    pending := max (acc.totalTasks - acc.closedTasks) 0
    quality := acc.closedIssues
    incidents := max (acc.totalIssues - acc.closedIssues) 0 }

/-- `_is_new_project`: no metric reports a truthy `total` and there are no
student entries. -/
def _is_new_project (metrics studentEntries : List MetricDict) : Bool :=
  if metrics.any (fun m => mdTruthy (m.metadata.lookup "total")) then false
  else studentEntries.length == 0

/-- The payload dict literal of `build_snapshot` (lines 79-92). -/
def assemblePayload (p : Project) (metrics : List MetricDict)
    (students : List StudentView) (studentEntries : List MetricDict) : Payload :=
  { projectSlug := p.slug
    projectName := p.name
    externalProjectId := p.slug
    metrics
    students
    metricsCategories := _build_metric_categories
    strategicIndicators := []
    qualityFactors := []
    hours := _build_hours_breakdown metrics
    errors := []
    isNewProject := _is_new_project metrics studentEntries }

/-- `InternalMetricsCalculator.build_snapshot`: three hard-coded metric
builders, `None` results filtered out, student entries appended to the flat
metrics list, payload assembled. -/
def build_snapshot (db : Db) (p : Project) (nowIso : String) : SnapshotResult :=
  let metrics0 := [_metric_task_completion db p, _metric_user_story_completion db p,
                   _metric_issue_resolution db p]
  let metrics1 := metrics0.filterMap id
  let studs := _build_student_metrics db p nowIso
  let metrics := metrics1 ++ studs.2
  { payload := assemblePayload p metrics studs.1 studs.2 }

/-- The control flow of `build_snapshot` with the outcome of each
method call made explicit: the body evaluates the three metric builders,
then the student aggregation, then (after assembling the payload dict) the
historical builder, in that order, inside no `try`/`except` of any kind —
an exception anywhere (modelled by `Except.error`) propagates to the
caller. Instantiating every slot with `Except.ok` of the corresponding pure
function above yields exactly `build_snapshot`. -/
def buildSnapshotSeq {ε : Type} (p : Project)
    (metricTaskCompletion metricUserStoryCompletion metricIssueResolution :
      Except ε (Option MetricDict))
    (studentMetrics : Except ε (List StudentView × List MetricDict))
    (historicalPayload : Except ε Unit) : Except ε Payload := do
  let m1 ← metricTaskCompletion
  let m2 ← metricUserStoryCompletion
  let m3 ← metricIssueResolution
  let metrics1 := [m1, m2, m3].filterMap id
  let studs ← studentMetrics
  let metrics := metrics1 ++ studs.2
  let _ ← historicalPayload
  return assemblePayload p metrics studs.1 studs.2

/-! ## `metrics_impl` registered student metrics

The registered per-student classes subclass `base.BaseStudentMetric`. Every
subclass defines `__init__(self, project, context=None)` and forwards both
arguments: `super().__init__(project, context)`; the base initializer is
`def __init__(self, project)` and stores only `self.project`. The argument
list passed to the base initializer is modelled explicitly so that Python's
arity checking (a `TypeError` on a surplus positional argument) is visible. -/

/-- A positional argument in a student-metric constructor call. -/
inductive PyArg where
  | proj (p : Project)
  | ctx (c : Option (List (String × ℚ)))
deriving DecidableEq

/-- The attributes `BaseStudentMetric.__init__` sets (only the project; it
never sets a `context` attribute). -/
structure BaseStudentMetricState where
  projectId : Nat
deriving DecidableEq

/-- `BaseStudentMetric.__init__(self, project)` applied to an explicit
positional-argument list: exactly one argument is accepted, anything else
raises `TypeError`. -/
def BaseStudentMetric_init : List PyArg → Except String BaseStudentMetricState
  | [PyArg.proj p] => Except.ok { projectId := p.id }
  | args =>
    Except.error ("TypeError: BaseStudentMetric.__init__ takes 2 positional arguments but "
      ++ toString (args.length + 1) ++ " were given")

namespace AssignedTasksStudentMetric

/-- `AssignedTasksStudentMetric(project, context)`: the subclass initializer
runs `super().__init__(project, context)`. -/
def new (p : Project) (context : Option (List (String × ℚ))) :
    Except String BaseStudentMetricState :=
  BaseStudentMetric_init [PyArg.proj p, PyArg.ctx context]

/-- `get_value_for_user`: the member's assigned tasks over the project-wide
`context["total_tasks"]`; `0.0` on a zero total. -/
def get_value_for_user (context : List (String × ℚ)) (row : StudentCounts) : ℚ :=
  let total := (context.lookup "total_tasks").getD 0
  if 0 < total then (row.assignedTasks : ℚ) / total else 0

end AssignedTasksStudentMetric

namespace ClosedTasksStudentMetric

/-- `ClosedTasksStudentMetric(project, context)`. -/
def new (p : Project) (context : Option (List (String × ℚ))) :
    Except String BaseStudentMetricState :=
  BaseStudentMetric_init [PyArg.proj p, PyArg.ctx context]

/-- `get_value_for_user`: closed/assigned ratio for the member, `0.0` when
the member has no assigned tasks. -/
def get_value_for_user (row : StudentCounts) : ℚ :=
  if 0 < row.assignedTasks then (row.closedTasks : ℚ) / (row.assignedTasks : ℚ) else 0

/-- The `value_description` produced by the overridden
`build_metric_for_user`: the exact `"closed/assigned"` fraction. -/
def value_description (row : StudentCounts) : String :=
  toString row.closedTasks ++ "/" ++ toString row.assignedTasks

end ClosedTasksStudentMetric

namespace AssignedStoriesStudentMetric

/-- `AssignedStoriesStudentMetric(project, context)` (metric key `totalus`). -/
def new (p : Project) (context : Option (List (String × ℚ))) :
    Except String BaseStudentMetricState :=
  BaseStudentMetric_init [PyArg.proj p, PyArg.ctx context]

end AssignedStoriesStudentMetric

namespace CompletedStoriesStudentMetric

/-- `CompletedStoriesStudentMetric(project, context)` (metric key
`completedus`). -/
def new (p : Project) (context : Option (List (String × ℚ))) :
    Except String BaseStudentMetricState :=
  BaseStudentMetric_init [PyArg.proj p, PyArg.ctx context]

end CompletedStoriesStudentMetric

/-! ## Snapshot store (`models.ProjectMetricsSnapshot`,
`internal.get_or_build_snapshot`) -/

/-- One `ProjectMetricsSnapshot` row. -/
structure Snapshot where
  id : Nat
  projectId : Nat
  provider : String
  computedAt : Int
  payload : Payload
deriving DecidableEq

def INTERNAL_PROVIDER : String := "internal"

def DEFAULT_SNAPSHOT_TTL_MINUTES : Int := 60

/-- The queryset filter `project=project, provider="internal"`. -/
def snapMatches (p : Project) (s : Snapshot) : Bool :=
  s.projectId == p.id && s.provider == INTERNAL_PROVIDER

/-- `computed_at__gte=cutoff`. -/
def snapFresh (cutoff : Int) (s : Snapshot) : Bool :=
  decide (cutoff ≤ s.computedAt)

/-- `.first()` under the model `Meta` ordering `["-computed_at", "-id"]`:
the row maximal in (computed_at, id). -/
def firstSnap? : List Snapshot → Option Snapshot
  | [] => none
  | s :: rest =>
    match firstSnap? rest with
    | none => some s
    | some b =>
      if b.computedAt < s.computedAt ∨ (b.computedAt = s.computedAt ∧ b.id < s.id)
      then some s else some b

/-- A fresh primary key for `objects.create` (larger than every id in the
store). -/
def freshId (store : List Snapshot) : Nat :=
  (store.map (fun s => s.id)).foldr max 0 + 1

/-- `cutoff = timezone.now() - timedelta(minutes=max(ttl_minutes, 1))`. -/
def gobCutoff (now ttl : Int) : Int := now - max ttl 1

/-- The cache lookup of `get_or_build_snapshot`: only performed when
`use_cache and not force`. -/
def gobCached (store : List Snapshot) (p : Project) (now ttl : Int)
    (useCache force : Bool) : Option Snapshot :=
  if useCache && !force then
    firstSnap? ((store.filter (snapMatches p)).filter (snapFresh (gobCutoff now ttl)))
  else none

/-- The snapshot row `objects.create` persists on the compute path. -/
def gobSnap (db : Db) (store : List Snapshot) (p : Project) (now : Int) : Snapshot :=
  { id := freshId store
    projectId := p.id
    provider := INTERNAL_PROVIDER
    computedAt := now
    payload := (build_snapshot db p (toString now)).payload }

/-- Result of one `get_or_build_snapshot` call: the store afterwards, the
returned snapshot, and whether the calculator was invoked. -/
structure GobResult where
  store : List Snapshot
  snap : Snapshot
  invoked : Bool
deriving DecidableEq

/-- The compute path: build, persist, then delete every other snapshot of
the `(project, "internal")` pair (`queryset.exclude(id=snapshot.id).delete()`). -/
def gobCompute (db : Db) (store : List Snapshot) (p : Project) (now : Int) : GobResult :=
  let snap := gobSnap db store p now
  { store := (store ++ [snap]).filter (fun s => !(snapMatches p s) || s.id == snap.id)
    snap := snap
    invoked := true }

/-- `internal.get_or_build_snapshot(project, use_cache=..., force=...)`. -/
def get_or_build_snapshot (db : Db) (store : List Snapshot) (p : Project)
    (now ttl : Int) (useCache force : Bool) : GobResult :=
  match gobCached store p now ttl useCache force with
  | some s => { store := store, snap := s, invoked := false }
  | none => gobCompute db store p now

/-! ### Snapshot-store lemmas -/

theorem gob_eq_of_cached_some (db : Db) {store : List Snapshot} {p : Project}
    {now ttl : Int} {uc f : Bool} {s : Snapshot}
    (h : gobCached store p now ttl uc f = some s) :
    get_or_build_snapshot db store p now ttl uc f =
      { store := store, snap := s, invoked := false } := by
  unfold get_or_build_snapshot
  rw [h]

theorem gob_eq_of_cached_none (db : Db) {store : List Snapshot} {p : Project}
    {now ttl : Int} {uc f : Bool}
    (h : gobCached store p now ttl uc f = none) :
    get_or_build_snapshot db store p now ttl uc f = gobCompute db store p now := by
  unfold get_or_build_snapshot
  rw [h]

theorem gobCached_force (store : List Snapshot) (p : Project) (now ttl : Int)
    (uc : Bool) : gobCached store p now ttl uc true = none := by
  simp [gobCached]

theorem le_foldr_max (l : List Nat) (x : Nat) (hx : x ∈ l) :
    x ≤ l.foldr max 0 := by
  induction l with
  | nil => simp at hx
  | cons a rest ih =>
    simp only [List.foldr_cons]
    rcases List.mem_cons.mp hx with h | h
    · subst h; exact le_max_left _ _
    · exact le_trans (ih h) (le_max_right _ _)

theorem freshId_not_mem (store : List Snapshot) (s : Snapshot) (hs : s ∈ store) :
    s.id ≠ freshId store := by
  have h : s.id ≤ (store.map (fun s => s.id)).foldr max 0 :=
    le_foldr_max _ _ (List.mem_map_of_mem _ hs)
  unfold freshId
  omega

theorem firstSnap?_eq_none (l : List Snapshot) :
    firstSnap? l = none ↔ l = [] := by
  cases l with
  | nil => simp [firstSnap?]
  | cons a rest =>
    simp only [firstSnap?]
    cases firstSnap? rest with
    | none => simp
    | some b =>
      by_cases h : b.computedAt < a.computedAt ∨ (b.computedAt = a.computedAt ∧ b.id < a.id) <;>
        simp [h]

theorem firstSnap?_mem (l : List Snapshot) (s : Snapshot)
    (h : firstSnap? l = some s) : s ∈ l := by
  induction l with
  | nil => simp [firstSnap?] at h
  | cons a rest ih =>
    cases hr : firstSnap? rest with
    | none =>
      simp only [firstSnap?, hr] at h
      cases h
      exact List.mem_cons_self _ _
    | some b =>
      simp only [firstSnap?, hr] at h
      by_cases hc : b.computedAt < a.computedAt ∨ (b.computedAt = a.computedAt ∧ b.id < a.id)
      · rw [if_pos hc] at h
        cases h
        exact List.mem_cons_self _ _
      · rw [if_neg hc] at h
        cases h
        exact List.mem_cons_of_mem _ (ih hr)

theorem firstSnap?_spec (l : List Snapshot) (hl : l ≠ []) :
    ∃ s, firstSnap? l = some s ∧ s ∈ l := by
  cases hf : firstSnap? l with
  | none => exact absurd ((firstSnap?_eq_none l).mp hf) hl
  | some s => exact ⟨s, rfl, firstSnap?_mem l s hf⟩

/-- After the compute path, the `(project, "internal")` rows of the store
are exactly the new snapshot. -/
theorem compute_store_filter (store : List Snapshot) (p : Project) (snap : Snapshot)
    (hmatch : snapMatches p snap = true)
    (hid : ∀ x ∈ store, x.id ≠ snap.id) :
    ((store ++ [snap]).filter (fun s => !(snapMatches p s) || s.id == snap.id)).filter
      (snapMatches p) = [snap] := by
  induction store with
  | nil =>
    simp [List.filter_cons, hmatch]
  | cons a rest ih =>
    have hane : (a.id == snap.id) = false :=
      beq_eq_false_iff_ne.mpr (hid a (List.mem_cons_self a rest))
    have ih2 := ih (fun x hx => hid x (List.mem_cons_of_mem a hx))
    by_cases hm : snapMatches p a = true
    · have hkeep : (!(snapMatches p a) || (a.id == snap.id)) = false := by
        rw [hm, hane]
        rfl
      rw [List.cons_append, List.filter_cons, hkeep]
      simpa using ih2
    · have hm2 : snapMatches p a = false := by
        revert hm
        cases snapMatches p a <;> simp
      have hkeep : (!(snapMatches p a) || (a.id == snap.id)) = true := by
        rw [hm2]
        rfl
      rw [List.cons_append, List.filter_cons, hkeep]
      simp only [if_true]
      rw [List.filter_cons, hm2]
      simpa using ih2

theorem gobCompute_store_filter (db : Db) (store : List Snapshot) (p : Project)
    (now : Int) :
    ((gobCompute db store p now).store.filter (snapMatches p)) =
      [(gobCompute db store p now).snap] := by
  have hmatch : snapMatches p (gobSnap db store p now) = true := by
    simp [snapMatches, gobSnap]
  have hid : ∀ x ∈ store, x.id ≠ (gobSnap db store p now).id := by
    intro x hx
    simpa [gobSnap] using freshId_not_mem store x hx
  exact compute_store_filter store p (gobSnap db store p now) hmatch hid

/-! ## Claim theorems -/

theorem sprintCurrent_imp_open (pid : Nat) (today : Int) (m : Milestone)
    (h : sprintCurrent pid today m = true) : sprintOpen pid m = true := by
  simp only [sprintCurrent, Bool.and_eq_true, decide_eq_true_eq] at h
  simp only [sprintOpen, Bool.and_eq_true]
  exact ⟨h.1.1.1, h.1.1.2⟩

/-- C6: `get_active_sprint` returns an open (not closed) milestone of the
project whose `estimated_start ≤ today ≤ estimated_finish` when such a
milestone exists; otherwise it returns the open milestone with the earliest
`estimated_finish`; and it returns nothing when the project has no open
milestone. -/
theorem c6_get_active_sprint (ms : List Milestone) (pid : Nat) (today : Int) :
    ((∃ m ∈ ms, sprintCurrent pid today m = true) →
      ∃ m, get_active_sprint ms pid today = some m ∧ m ∈ ms ∧
        sprintCurrent pid today m = true)
    ∧ ((∀ m ∈ ms, sprintCurrent pid today m = false) →
       (∃ m ∈ ms, sprintOpen pid m = true) →
      ∃ m, get_active_sprint ms pid today = some m ∧ m ∈ ms ∧
        sprintOpen pid m = true ∧
        ∀ x ∈ ms, sprintOpen pid x = true → m.estimatedFinish ≤ x.estimatedFinish)
    ∧ ((∀ m ∈ ms, sprintOpen pid m = false) → get_active_sprint ms pid today = none) := by
  refine ⟨?_, ?_, ?_⟩
  · rintro ⟨m0, hm0, hp⟩
    have hsome : (ms.find? (sprintCurrent pid today)).isSome :=
      List.find?_isSome.mpr ⟨m0, hm0, hp⟩
    cases hf : ms.find? (sprintCurrent pid today) with
    | none => rw [hf] at hsome; simp at hsome
    | some m =>
      exact ⟨m, by simp [get_active_sprint, hf], List.mem_of_find?_eq_some hf,
        List.find?_some hf⟩
  · intro hnone hex
    have hf : ms.find? (sprintCurrent pid today) = none :=
      List.find?_eq_none.mpr (fun x hx => by simp [hnone x hx])
    obtain ⟨m0, hm0, hp0⟩ := hex
    have hne : ms.filter (sprintOpen pid) ≠ [] := by
      intro hemp
      have hmem0 : m0 ∈ ms.filter (sprintOpen pid) := List.mem_filter.mpr ⟨hm0, hp0⟩
      rw [hemp] at hmem0
      simp at hmem0
    obtain ⟨m, hm, hmem, hmin⟩ := minByFinish?_spec _ hne
    refine ⟨m, by simp [get_active_sprint, hf, hm], (List.mem_filter.mp hmem).1,
      (List.mem_filter.mp hmem).2, ?_⟩
    intro x hx hox
    exact hmin x (List.mem_filter.mpr ⟨hx, hox⟩)
  · intro hopen
    have hf : ms.find? (sprintCurrent pid today) = none := by
      refine List.find?_eq_none.mpr (fun x hx hcur => ?_)
      have hop := sprintCurrent_imp_open pid today x hcur
      rw [hopen x hx] at hop
      exact Bool.false_ne_true hop
    have hfil : ms.filter (sprintOpen pid) = [] :=
      List.filter_eq_nil_iff.mpr (fun x hx => by simp [hopen x hx])
    simp [get_active_sprint, hf, hfil, minByFinish?]

def mA : Milestone :=
  { id := 1, projectId := 1, name := "S1", closed := false,
    estimatedStart := 0, estimatedFinish := 10 }

def mB1 : Milestone :=
  { id := 2, projectId := 1, name := "S2", closed := false,
    estimatedStart := 20, estimatedFinish := 30 }

def mB2 : Milestone :=
  { id := 3, projectId := 1, name := "S3", closed := false,
    estimatedStart := 40, estimatedFinish := 25 }

def mC : Milestone :=
  { id := 4, projectId := 1, name := "S4", closed := true,
    estimatedStart := 0, estimatedFinish := 10 }

/-- Witness for C6: the three branches evaluated on concrete milestone
tables (a current sprint; only future sprints, picking the earliest finish;
only a closed sprint). -/
theorem c6_get_active_sprint_witness :
    (∃ m, get_active_sprint [mA] 1 5 = some m ∧ m ∈ [mA] ∧
      sprintCurrent 1 5 m = true)
    ∧ (∃ m, get_active_sprint [mB1, mB2] 1 5 = some m ∧ m ∈ [mB1, mB2] ∧
        sprintOpen 1 m = true ∧
        ∀ x ∈ [mB1, mB2], sprintOpen 1 x = true →
          m.estimatedFinish ≤ x.estimatedFinish)
    ∧ get_active_sprint [mC] 1 5 = none := by
  refine ⟨(c6_get_active_sprint [mA] 1 5).1 ⟨mA, by decide, by decide⟩,
    (c6_get_active_sprint [mB1, mB2] 1 5).2.1 (by decide) ⟨mB1, by decide, by decide⟩,
    (c6_get_active_sprint [mC] 1 5).2.2 (by decide)⟩

/-- C1: both task-completion calculators (the internal calculator's
project-wide `_metric_task_completion` and the registered
`TaskCompletionMetric.calculate`, whose scope is the active sprint when one
exists) produce a `value` equal to `round(C/T, 4)` when the scanned row set
has `T > 0` total tasks and `C` closed ones, and `0.0` when `T = 0`. -/
theorem c1_task_completion_value (db : Db) (p : Project) (today : Int) :
    ((_metric_task_completion_dict db p).value =
      (if 0 < (db.tasks.filter (fun t => t.projectId == p.id)).length then
        round4 ((((db.tasks.filter (fun t => t.projectId == p.id)).filter
            (fun t => t.statusClosed)).length : ℚ) /
          ((db.tasks.filter (fun t => t.projectId == p.id)).length : ℚ))
      else 0))
    ∧ ((TaskCompletionMetric.result db p today).value =
      (if 0 < (TaskCompletionMetric.rows db p today).length then
        round4 ((((TaskCompletionMetric.rows db p today).filter
            (fun t => t.statusClosed)).length : ℚ) /
          ((TaskCompletionMetric.rows db p today).length : ℚ))
      else 0)) := by
  constructor
  · dsimp only [_metric_task_completion_dict, MetricDict.value]
    by_cases hT : (db.tasks.filter (fun t => t.projectId == p.id)).length = 0
    · simp [hT, round4_zero]
    · have h1 : ((db.tasks.filter (fun t => t.projectId == p.id)).length == 0) = false :=
        beq_eq_false_iff_ne.mpr hT
      have h2 : 0 < (db.tasks.filter (fun t => t.projectId == p.id)).length :=
        Nat.pos_of_ne_zero hT
      simp [h1, h2]
  · dsimp only [TaskCompletionMetric.result, build_result, MetricDict.value]
    by_cases hT : 0 < (TaskCompletionMetric.rows db p today).length
    · simp [hT]
    · simp [hT, round4_zero]

/-- C8: the zero-denominator policy of the registered project metrics:
with nothing in scope, task assignment yields `1.0` (no tasks),
blocked tasks yields `1.0` (no open tasks), stories-with-tasks yields `1.0`
(no stories), team participation yields `0.0` (no members), and
tasks-on-time yields `1.0` (no open tasks); the rational model makes a
division error impossible. -/
theorem c8_zero_denominator_policy (db : Db) (p : Project) (today : Int) :
    (TaskAssignmentMetric.rows db p today = [] →
      (TaskAssignmentMetric.result db p today).value = 1)
    ∧ (BlockedTasksMetric.rows db p today = [] →
      (BlockedTasksMetric.result db p today).value = 1)
    ∧ (StoriesWithTasksMetric.rows db p today = [] →
      (StoriesWithTasksMetric.result db p today).value = 1)
    ∧ (TeamParticipationMetric.memberIds db p = [] →
      (TeamParticipationMetric.result db p today).value = 0)
    ∧ (OverdueTasksMetric.rows db p today = [] →
      (OverdueTasksMetric.result db p today).value = 1) := by
  refine ⟨?_, ?_, ?_, ?_, ?_⟩
  · intro h
    dsimp only [TaskAssignmentMetric.result, build_result, MetricDict.value]
    simp [h, round4_one]
  · intro h
    dsimp only [BlockedTasksMetric.result, build_result, MetricDict.value]
    simp [h, round4_one]
  · intro h
    dsimp only [StoriesWithTasksMetric.result, build_result, MetricDict.value]
    simp [h, round4_one]
  · intro h
    dsimp only [TeamParticipationMetric.result, build_result, MetricDict.value]
    simp [h, round4_zero]
  · intro h
    dsimp only [OverdueTasksMetric.result, build_result, MetricDict.value]
    simp [h, round4_one]

/-- The example project used by the concrete evaluations. -/
def exProject : Project := { id := 1, slug := "p", name := "P" }

/-- A database with no rows at all. -/
def emptyDb : Db :=
  { tasks := [], stories := [], issues := [], milestones := [],
    memberships := [], users := [] }

/-- A concrete stored snapshot (its payload is the one computed from the
empty database). -/
def exSnapshot : Snapshot :=
  { id := 1, projectId := 1, provider := "internal", computedAt := 100,
    payload := (build_snapshot emptyDb exProject "t").payload }

/-- Witness for C8: the five zero-denominator conclusions on an empty
database. -/
theorem c8_zero_denominator_policy_witness :
    (TaskAssignmentMetric.result emptyDb exProject 0).value = 1
    ∧ (BlockedTasksMetric.result emptyDb exProject 0).value = 1
    ∧ (StoriesWithTasksMetric.result emptyDb exProject 0).value = 1
    ∧ (TeamParticipationMetric.result emptyDb exProject 0).value = 0
    ∧ (OverdueTasksMetric.result emptyDb exProject 0).value = 1 := by
  have h := c8_zero_denominator_policy emptyDb exProject 0
  exact ⟨h.1 rfl, h.2.1 rfl, h.2.2.1 rfl, h.2.2.2.1 rfl, h.2.2.2.2 rfl⟩

/-- A `use_cache=True, force=False` call on a store holding a fresh
`(project, "internal")` snapshot is a cache hit: no calculator invocation,
the returned snapshot is one already stored, and the store is unchanged. -/
theorem gob_cache_hit_of_fresh (db : Db) (store : List Snapshot) (p : Project)
    (now ttl : Int)
    (hex : ∃ s ∈ store, snapMatches p s = true ∧
      now - max ttl 1 ≤ s.computedAt) :
    (get_or_build_snapshot db store p now ttl true false).invoked = false
    ∧ (get_or_build_snapshot db store p now ttl true false).snap ∈ store
    ∧ (get_or_build_snapshot db store p now ttl true false).store = store := by
  obtain ⟨s0, hs0, hm, hf⟩ := hex
  have hmem : s0 ∈ (store.filter (snapMatches p)).filter (snapFresh (gobCutoff now ttl)) := by
    refine List.mem_filter.mpr ⟨List.mem_filter.mpr ⟨hs0, hm⟩, ?_⟩
    simp only [snapFresh, gobCutoff, decide_eq_true_eq]
    exact hf
  have hne : (store.filter (snapMatches p)).filter (snapFresh (gobCutoff now ttl)) ≠ [] := by
    intro h
    rw [h] at hmem
    simp at hmem
  obtain ⟨s, hs, hsmem⟩ := firstSnap?_spec _ hne
  have hcached : gobCached store p now ttl true false = some s := by
    simp only [gobCached, Bool.not_false, Bool.and_true, if_true]
    exact hs
  rw [gob_eq_of_cached_some db hcached]
  exact ⟨rfl, (List.mem_filter.mp (List.mem_filter.mp hsmem).1).1, rfl⟩

/-- C4: when the first call computed and persisted a snapshot and the second
call happens within the TTL window (`now2 - max(ttl, 1) ≤ now1`) with
`use_cache=True, force=False`, the second call returns the very snapshot the
first call stored, does not invoke the calculator, and leaves the store
unchanged; and in general, whenever a fresh `(project, "internal")` snapshot
exists at the second call, that call returns a stored snapshot without
invoking the calculator. -/
theorem c4_snapshot_cache_hit (db : Db) (store : List Snapshot) (p : Project)
    (now1 now2 ttl : Int) (uc f : Bool)
    (hinv : (get_or_build_snapshot db store p now1 ttl uc f).invoked = true)
    (hfresh : now2 - max ttl 1 ≤ now1) :
    (get_or_build_snapshot db (get_or_build_snapshot db store p now1 ttl uc f).store
        p now2 ttl true false).snap
      = (get_or_build_snapshot db store p now1 ttl uc f).snap
    ∧ (get_or_build_snapshot db (get_or_build_snapshot db store p now1 ttl uc f).store
        p now2 ttl true false).invoked = false
    ∧ (get_or_build_snapshot db (get_or_build_snapshot db store p now1 ttl uc f).store
        p now2 ttl true false).store
      = (get_or_build_snapshot db store p now1 ttl uc f).store
    ∧ ∀ (store2 : List Snapshot),
        (∃ s ∈ store2, snapMatches p s = true ∧ now2 - max ttl 1 ≤ s.computedAt) →
        (get_or_build_snapshot db store2 p now2 ttl true false).invoked = false
        ∧ (get_or_build_snapshot db store2 p now2 ttl true false).snap ∈ store2
        ∧ (get_or_build_snapshot db store2 p now2 ttl true false).store = store2 := by
  have h1 : gobCached store p now1 ttl uc f = none := by
    cases hc : gobCached store p now1 ttl uc f with
    | none => rfl
    | some s =>
      rw [gob_eq_of_cached_some db hc] at hinv
      simp at hinv
  have hr1 : get_or_build_snapshot db store p now1 ttl uc f = gobCompute db store p now1 :=
    gob_eq_of_cached_none db h1
  rw [hr1]
  have hfilter : ((gobCompute db store p now1).store.filter (snapMatches p)) =
      [(gobCompute db store p now1).snap] := gobCompute_store_filter db store p now1
  have hfresh2 : snapFresh (gobCutoff now2 ttl) (gobCompute db store p now1).snap = true := by
    simp only [snapFresh, gobCutoff, gobCompute, gobSnap, decide_eq_true_eq]
    exact hfresh
  have h2 : gobCached (gobCompute db store p now1).store p now2 ttl true false =
      some (gobCompute db store p now1).snap := by
    simp only [gobCached, Bool.not_false, Bool.and_true, if_true]
    rw [hfilter]
    simp [List.filter_cons, hfresh2, firstSnap?]
  rw [gob_eq_of_cached_some db h2]
  exact ⟨rfl, rfl, rfl, fun store2 hex => gob_cache_hit_of_fresh db store2 p now2 ttl hex⟩

/-- Witness for C4: on an empty store, the first call computes; a second
call ten minutes later (TTL 60) returns the stored snapshot without
recomputation. -/
theorem c4_snapshot_cache_hit_witness :
    (get_or_build_snapshot emptyDb
        (get_or_build_snapshot emptyDb [] exProject 100 60 true false).store
        exProject 110 60 true false).invoked = false
    ∧ (get_or_build_snapshot emptyDb
        (get_or_build_snapshot emptyDb [] exProject 100 60 true false).store
        exProject 110 60 true false).snap
      = (get_or_build_snapshot emptyDb [] exProject 100 60 true false).snap
    ∧ (get_or_build_snapshot emptyDb
        (get_or_build_snapshot emptyDb [] exProject 100 60 true false).store
        exProject 110 60 true false).store
      = (get_or_build_snapshot emptyDb [] exProject 100 60 true false).store
    ∧ (get_or_build_snapshot emptyDb [exSnapshot] exProject 110 60 true false).invoked
      = false := by
  have h := c4_snapshot_cache_hit emptyDb [] exProject 100 110 60 true false rfl
    (by norm_num)
  refine ⟨h.2.1, h.1, h.2.2.1, ?_⟩
  exact (h.2.2.2 [exSnapshot] ⟨exSnapshot, List.mem_singleton.mpr rfl, rfl, by decide⟩).1

/-- C5: a `force=True` call always invokes the calculator, stamps the new
snapshot with the current time and the freshly computed payload, and leaves
exactly one `(project, "internal")` row in the store — the new one; and
every call (whatever its flags) either leaves the store unchanged or leaves
exactly that single row, so the at-most-one-live-snapshot invariant is
preserved. -/
theorem c5_force_recompute_single_row (db : Db) (store : List Snapshot)
    (p : Project) (now ttl : Int) (uc : Bool) :
    (get_or_build_snapshot db store p now ttl uc true).invoked = true
    ∧ ((get_or_build_snapshot db store p now ttl uc true).store.filter (snapMatches p))
        = [(get_or_build_snapshot db store p now ttl uc true).snap]
    ∧ (get_or_build_snapshot db store p now ttl uc true).snap.computedAt = now
    ∧ (get_or_build_snapshot db store p now ttl uc true).snap.payload
        = (build_snapshot db p (toString now)).payload
    ∧ ∀ uc2 f2,
        (get_or_build_snapshot db store p now ttl uc2 f2).store = store
        ∨ ((get_or_build_snapshot db store p now ttl uc2 f2).store.filter (snapMatches p))
            = [(get_or_build_snapshot db store p now ttl uc2 f2).snap] := by
  have hr : get_or_build_snapshot db store p now ttl uc true = gobCompute db store p now :=
    gob_eq_of_cached_none db (gobCached_force store p now ttl uc)
  rw [hr]
  refine ⟨rfl, gobCompute_store_filter db store p now, rfl, rfl, ?_⟩
  intro uc2 f2
  cases hc : gobCached store p now ttl uc2 f2 with
  | some s =>
    left
    rw [gob_eq_of_cached_some db hc]
  | none =>
    right
    rw [gob_eq_of_cached_none db hc]
    exact gobCompute_store_filter db store p now

/-- C10: the cache cutoff is `now - max(ttl, 1)` minutes, so a zero or
negative configured TTL behaves exactly like TTL = 1: a snapshot computed
within the last minute is still served from cache. -/
theorem c10_ttl_clamped_to_one_minute (db : Db) (store : List Snapshot)
    (p : Project) (now ttl : Int) (s0 : Snapshot)
    (httl : ttl ≤ 0) (hs0 : s0 ∈ store) (hm : snapMatches p s0 = true)
    (hf : now - 1 ≤ s0.computedAt) :
    (get_or_build_snapshot db store p now ttl true false).invoked = false
    ∧ (get_or_build_snapshot db store p now ttl true false).snap ∈ store
    ∧ snapMatches p (get_or_build_snapshot db store p now ttl true false).snap = true
    ∧ now - 1 ≤ (get_or_build_snapshot db store p now ttl true false).snap.computedAt
    ∧ (get_or_build_snapshot db store p now ttl true false).store = store
    ∧ get_or_build_snapshot db store p now ttl true false
        = get_or_build_snapshot db store p now 1 true false := by
  have hmax : max ttl 1 = 1 := max_eq_right (by omega)
  have hmem : s0 ∈ (store.filter (snapMatches p)).filter (snapFresh (gobCutoff now ttl)) := by
    refine List.mem_filter.mpr ⟨List.mem_filter.mpr ⟨hs0, hm⟩, ?_⟩
    simp only [snapFresh, gobCutoff, hmax, decide_eq_true_eq]
    omega
  have hne : (store.filter (snapMatches p)).filter (snapFresh (gobCutoff now ttl)) ≠ [] := by
    intro h
    rw [h] at hmem
    simp at hmem
  obtain ⟨s, hs, hsmem⟩ := firstSnap?_spec _ hne
  have hcached : gobCached store p now ttl true false = some s := by
    simp only [gobCached, Bool.not_false, Bool.and_true, if_true]
    exact hs
  have hsprops : s ∈ store ∧ snapMatches p s = true ∧ now - 1 ≤ s.computedAt := by
    have h1 := List.mem_filter.mp hsmem
    have h2 := List.mem_filter.mp h1.1
    refine ⟨h2.1, h2.2, ?_⟩
    have h3 := h1.2
    simp only [snapFresh, gobCutoff, hmax, decide_eq_true_eq] at h3
    omega
  have hcached1 : gobCached store p now 1 true false = some s := by
    have hcut : gobCutoff now ttl = gobCutoff now 1 := by
      simp [gobCutoff, hmax]
    simp only [gobCached, Bool.not_false, Bool.and_true, if_true]
    rw [← hcut]
    exact hs
  rw [gob_eq_of_cached_some db hcached, gob_eq_of_cached_some db hcached1]
  exact ⟨rfl, hsprops.1, hsprops.2.1, hsprops.2.2, rfl, rfl⟩

/-- Witness for C10: with a configured TTL of -5 minutes and a snapshot
computed at the current minute, the call is a cache hit and coincides with
the TTL = 1 call. -/
theorem c10_ttl_clamped_to_one_minute_witness :
    (get_or_build_snapshot emptyDb [exSnapshot] exProject 100 (-5) true false).invoked = false
    ∧ (get_or_build_snapshot emptyDb [exSnapshot] exProject 100 (-5) true false).snap
        ∈ [exSnapshot]
    ∧ (get_or_build_snapshot emptyDb [exSnapshot] exProject 100 (-5) true false).store
        = [exSnapshot]
    ∧ get_or_build_snapshot emptyDb [exSnapshot] exProject 100 (-5) true false
        = get_or_build_snapshot emptyDb [exSnapshot] exProject 100 1 true false := by
  have h := c10_ttl_clamped_to_one_minute emptyDb [exSnapshot] exProject 100 (-5)
    exSnapshot (by norm_num) (List.mem_singleton.mpr rfl) rfl (by decide)
  exact ⟨h.1, h.2.1, h.2.2.2.2.1, h.2.2.2.2.2⟩

/-- A concrete database: one project with four tasks; member `ana` is
assigned two of them (one closed, one open), member `bob` the other two
(one closed, one open); no stories, issues or milestones. -/
def exDb : Db :=
  { tasks :=
      [{ id := 1, projectId := 1, milestoneId := none, userStoryId := none,
         assignedTo := some 10, statusClosed := true, isBlocked := false,
         dueDate := none, finishedRecent := false },
       { id := 2, projectId := 1, milestoneId := none, userStoryId := none,
         assignedTo := some 10, statusClosed := false, isBlocked := false,
         dueDate := none, finishedRecent := false },
       { id := 3, projectId := 1, milestoneId := none, userStoryId := none,
         assignedTo := some 11, statusClosed := true, isBlocked := false,
         dueDate := none, finishedRecent := false },
       { id := 4, projectId := 1, milestoneId := none, userStoryId := none,
         assignedTo := some 11, statusClosed := false, isBlocked := false,
         dueDate := none, finishedRecent := false }]
    stories := []
    issues := []
    milestones := []
    memberships := [{ projectId := 1, userId := some 10 },
                    { projectId := 1, userId := some 11 }]
    users := [{ id := 10, username := "ana", fullName := "Ana" },
              { id := 11, username := "bob", fullName := "Bob" }] }

/-- C2 (code divergence): nine project metrics are registered — among them
`task_assignment` — yet `build_snapshot` never consults the registry: on the
example project its payload contains no `task_assignment_p` entry at all
(only the three hard-coded KPIs, here witnessed by the single
`task_completion_p` entry, plus the per-student entries). -/
theorem c2_registry_not_consulted :
    METRIC_REGISTRY.length = 9
    ∧ "task_assignment" ∈ METRIC_REGISTRY
    ∧ ((build_snapshot exDb exProject "2026-01-01T00:00:00").payload.metrics.filter
        (fun m => m.id == "task_assignment_" ++ exProject.slug)) = []
    ∧ ((build_snapshot exDb exProject "2026-01-01T00:00:00").payload.metrics.filter
        (fun m => m.id == "task_completion_" ++ exProject.slug)).length = 1 := by
  refine ⟨rfl, by decide, by decide, by decide⟩

/-- C3 counterexample: when the first metric builder raises (a database
error, say), `build_snapshot` does not complete with that metric absent —
the exception propagates and no payload is produced. -/
theorem c3_counterexample :
    buildSnapshotSeq exProject (Except.error "database error")
      (Except.ok none) (Except.ok none) (Except.ok ([], [])) (Except.ok ())
      = Except.error "database error" := rfl

/-- C3 (amended): `build_snapshot` has no per-metric error isolation — an
exception raised by any of the three metric builders, by the student
aggregation, or by the historical builder propagates out of
`build_snapshot` unchanged, and no payload is returned. -/
theorem c3_error_propagates (p : Project) (e : String) :
    (∀ m2 m3 st h, buildSnapshotSeq p (Except.error e) m2 m3 st h = Except.error e)
    ∧ (∀ d1 m3 st h,
        buildSnapshotSeq p (Except.ok d1) (Except.error e) m3 st h = Except.error e)
    ∧ (∀ d1 d2 st h,
        buildSnapshotSeq p (Except.ok d1) (Except.ok d2) (Except.error e) st h
          = Except.error e)
    ∧ (∀ d1 d2 d3 h,
        buildSnapshotSeq p (Except.ok d1) (Except.ok d2) (Except.ok d3)
          (Except.error e) h = Except.error e)
    ∧ (∀ d1 d2 d3 st,
        buildSnapshotSeq p (Except.ok d1) (Except.ok d2) (Except.ok d3)
          (Except.ok st) (Except.error e) = Except.error e) :=
  ⟨fun _ _ _ _ => rfl, fun _ _ _ _ => rfl, fun _ _ _ _ => rfl,
   fun _ _ _ _ => rfl, fun _ _ _ _ => rfl⟩

/-- C7 (code divergence): member `ana` is assigned 2 of the project's 4
tasks with 1 of them closed; the snapshot build emits a `closedtasks_ana`
entry with value `1.0` (the raw count) and `value_description = "1"` — not
the `0.5` / `"1/2"` ratio that the registered (but never invoked)
`ClosedTasksStudentMetric` would produce for that row. -/
theorem c7_closedtasks_entry :
    (((build_snapshot exDb exProject "2026-01-01T00:00:00").payload.metrics.find?
        (fun m => m.id == "closedtasks_ana")).map
      (fun m => (m.value, m.valueDescription, m.student)))
      = some ((1 : ℚ), some "1", some "ana")
    ∧ ClosedTasksStudentMetric.get_value_for_user
        { assignedTasks := 2, closedTasks := 1, assignedStories := 0,
          closedStories := 0 } = 1/2
    ∧ ClosedTasksStudentMetric.value_description
        { assignedTasks := 2, closedTasks := 1, assignedStories := 0,
          closedStories := 0 } = "1/2" := by
  refine ⟨by decide, ?_, by decide⟩
  norm_num [ClosedTasksStudentMetric.get_value_for_user]

/-- C9 (code divergence): four student metrics are registered, and
constructing any of them with `(project, context)` — or even with the
default `context=None` — raises `TypeError`, because every subclass runs
`super().__init__(project, context)` while `BaseStudentMetric.__init__`
accepts only `(self, project)`. -/
theorem c9_student_metric_constructor :
    STUDENT_METRIC_REGISTRY.length = 4
    ∧ AssignedTasksStudentMetric.new exProject (some []) = Except.error
        "TypeError: BaseStudentMetric.__init__ takes 2 positional arguments but 3 were given"
    ∧ ClosedTasksStudentMetric.new exProject (some []) = Except.error
        "TypeError: BaseStudentMetric.__init__ takes 2 positional arguments but 3 were given"
    ∧ AssignedStoriesStudentMetric.new exProject (some []) = Except.error
        "TypeError: BaseStudentMetric.__init__ takes 2 positional arguments but 3 were given"
    ∧ CompletedStoriesStudentMetric.new exProject (some []) = Except.error
        "TypeError: BaseStudentMetric.__init__ takes 2 positional arguments but 3 were given"
    ∧ AssignedTasksStudentMetric.new exProject none = Except.error
        "TypeError: BaseStudentMetric.__init__ takes 2 positional arguments but 3 were given" := by
  refine ⟨rfl, rfl, rfl, rfl, rfl, rfl⟩

end Taiga
